import Mathlib

/-!
Verification of `fpm-git/sequelize-transactional-method` (`src/main.js`).

The repository exports a single generator `sequelizeTransactionalMethodGenerator
(handler, errorHandler)` producing an async wrapped method.  We shallowly embed
the wrapped method as a pure function from

  * the construction-time configuration (whether an error handler is present),
  * a `Behavior` record giving the outcome of each external asynchronous
    operation (`db.transaction()`, the handler, `commit`, `rollback`, the
    error handler) and the value of the transaction's mutable `finished` flag
    at the moment line 95 of the source reads it,
  * the positional argument list,

to a pair of the call's outcome (`Except Err JSValue`) and the ordered trace of
observable side effects (`List Event`).  JavaScript reference identity is
modelled by decidable equality on `JSValue`, where each object carries a
distinguishing `id`.
-/

namespace SequelizeTransactionalMethod

/-- A JavaScript runtime value, as far as the wrapper can distinguish them.
`sequelize id` is an object whose constructor name is `Sequelize`;
`transaction id` one whose constructor name is `Transaction`; `other id` is any
other value.  Equality of `JSValue` models JavaScript reference identity
(`===`): distinct objects get distinct ids. -/
inductive JSValue where
  | sequelize (id : Nat)
  | transaction (id : Nat)
  | other (id : Nat)
deriving DecidableEq, Repr

/-- `src/main.js:12` — `isSequelize`: the structural approximation
`(v instanceof Object) && (v.constructor.name === 'Sequelize')`. -/
def isSequelize : JSValue → Bool
  | .sequelize _ => true
  | _ => false

/-- `src/main.js:19` — `isTransaction`: the structural approximation
`(v instanceof Object) && (v.constructor.name === 'Transaction')`. -/
def isTransaction : JSValue → Bool
  | .transaction _ => true
  | _ => false

/-- An error value.  `invalidHandler` / `invalidErrorHandler` are the two
wrap-time `InvalidArgument` errors (`src/main.js:64,69`); `invalidArgument fst`
is the call-time error of `src/main.js:80`, carrying the first positional
argument it describes (`none` when the argument list is empty, so `params[0]`
is `undefined`); `external id` is an opaque error raised by the handler, the
error handler, or a database operation — the `id` models error-object
identity, so an unchanged re-throw yields an equal `Err`. -/
inductive Err where
  | invalidHandler
  | invalidErrorHandler
  | invalidArgument (firstArg : Option JSValue)
  | external (id : Nat)
deriving DecidableEq, Repr

/-- `src/main.js:61-71` — the wrap-time validation performed by
`sequelizeTransactionalMethodGenerator` before it returns the wrapped closure.
`handlerCallable` is whether `handler instanceof Function`; `errorHandler` is
`none` when the argument is `undefined`, and `some c` when a value was
supplied, with `c` whether that value is a `Function`.  `.ok ()` stands for
successful construction (the closure is returned); the generator has no other
effect at construction time. -/
def sequelizeTransactionalMethodGenerator (handlerCallable : Bool)
    (errorHandler : Option Bool) : Except Err Unit :=
  if !handlerCallable then
    .error .invalidHandler
  else
    match errorHandler with
    | some callable => if !callable then .error .invalidErrorHandler else .ok ()
    | none => .ok ()

/-- An observable side effect of one invocation of the wrapped method, in
order of occurrence: `txCreate` is a call to `db.transaction()`
(`src/main.js:84`); `commit t` / `rollback t` are calls to `t.commit()` /
`t.rollback()` (`src/main.js:96,111`); `callHandler db tx rest` is the
invocation `handler(db, tx, ...rest)` (`src/main.js:93`); `callErrorHandler e
db tx orig` is the invocation `errorHandler(e, db, tx, orig)`
(`src/main.js:108`), where `orig` is the caller-supplied transaction or `none`
when it was `undefined`. -/
inductive Event where
  | txCreate
  | commit (t : JSValue)
  | rollback (t : JSValue)
  | callHandler (db tx : JSValue) (rest : List JSValue)
  | callErrorHandler (e : Err) (db tx : JSValue) (origTx : Option JSValue)
deriving DecidableEq, Repr

def Event.isTxCreate : Event → Bool
  | .txCreate => true
  | _ => false

def Event.isCommit : Event → Bool
  | .commit _ => true
  | _ => false

def Event.isRollback : Event → Bool
  | .rollback _ => true
  | _ => false

def Event.isCallHandler : Event → Bool
  | .callHandler .. => true
  | _ => false

def Event.isCallErrorHandler : Event → Bool
  | .callErrorHandler .. => true
  | _ => false

/-- The outcomes of the external asynchronous operations an invocation of the
wrapped method may perform.  `createdTx` is the result of `await
db.transaction()`; `handlerResult` the settled outcome of the handler;
`finishedAfterHandler` the truthiness of `handlerTransaction.finished` when
`src/main.js:95` reads it (the handler may have mutated it); `commitResult` /
`rollbackResult` the outcomes of `commit()` / `rollback()`;
`errorHandlerResult` the settled outcome of the error handler. -/
structure Behavior where
  createdTx : Except Err JSValue
  handlerResult : Except Err JSValue
  finishedAfterHandler : Bool
  commitResult : Except Err Unit
  rollbackResult : Except Err Unit
  errorHandlerResult : Except Err JSValue
deriving Repr

/-- `src/main.js:100-114` — the `catch (e)` block.  With an error handler,
its outcome becomes the call's outcome (`return await errorHandler(e, db,
handlerTransaction, transaction)`); otherwise, when no transaction was
supplied, the local transaction is rolled back (a rollback failure propagating
instead of `e`); finally `throw e`. -/
def catchBlock (hasErrorHandler : Bool) (b : Behavior)
    (db handlerTransaction : JSValue) (transaction : Option JSValue)
    (e : Err) (tr : List Event) : Except Err JSValue × List Event :=
  if hasErrorHandler then
    (b.errorHandlerResult,
      tr ++ [Event.callErrorHandler e db handlerTransaction transaction])
  else if transaction.isNone then
    match b.rollbackResult with
    | .ok _ => (.error e, tr ++ [Event.rollback handlerTransaction])
    | .error e2 => (.error e2, tr ++ [Event.rollback handlerTransaction])
  else
    (.error e, tr)

/-- `src/main.js:86-114` — the body run once a working transaction
`handlerTransaction` exists.  `transaction` is the caller-supplied transaction
(`none` when absent), `pre` the trace accumulated so far (a `txCreate` event
when the transaction was locally created).  It filters the handler parameters
(`src/main.js:88`), invokes the handler, and on success commits the local
transaction when its `finished` flag is unset (`src/main.js:95-96`) — the
commit being awaited inside the `try`, so a commit failure falls through to
the `catch` block. -/
def runWithTx (hasErrorHandler : Bool) (b : Behavior)
    (db handlerTransaction : JSValue) (transaction : Option JSValue)
    (params : List JSValue) (pre : List Event) :
    Except Err JSValue × List Event :=
  let handlerParams :=
    params.filter (fun p => decide (p ≠ db ∧ p ≠ handlerTransaction))
  let tr1 := pre ++ [Event.callHandler db handlerTransaction handlerParams]
  match b.handlerResult with
  | .ok handlerRes =>
    if transaction.isNone && !b.finishedAfterHandler then
      match b.commitResult with
      | .ok _ => (.ok handlerRes, tr1 ++ [Event.commit handlerTransaction])
      | .error e =>
        catchBlock hasErrorHandler b db handlerTransaction transaction e
          (tr1 ++ [Event.commit handlerTransaction])
    else
      (.ok handlerRes, tr1)
  | .error e => catchBlock hasErrorHandler b db handlerTransaction transaction e tr1

/-- `src/main.js:73-115` — one invocation of the wrapped method with argument
list `params`.  Extracts `db = params.find(isSequelize)` and `transaction =
params.find(isTransaction)`, fails with `InvalidArgument` unless a database
handle was found and sits first (`!db || params[0] !== db`), obtains the
working transaction (`transaction || await db.transaction()` — a creation
failure propagating with no further effect), and runs the body.  Returns the
call's outcome together with the ordered trace of side effects. -/
def wrappedMethod (hasErrorHandler : Bool) (b : Behavior)
    (params : List JSValue) : Except Err JSValue × List Event :=
  match params.find? isSequelize with
  | none => (.error (.invalidArgument params.head?), [])
  | some db =>
    if params.head? ≠ some db then
      (.error (.invalidArgument params.head?), [])
    else
      match params.find? isTransaction with
      | some t => runWithTx hasErrorHandler b db t (some t) params []
      | none =>
        match b.createdTx with
        | .error e => (.error e, [Event.txCreate])
        | .ok t => runWithTx hasErrorHandler b db t none params [Event.txCreate]

theorem find?_isSequelize_cons_self (db : JSValue) (l : List JSValue)
    (hdb : isSequelize db = true) :
    (db :: l).find? isSequelize = some db := by
  simp [List.find?_cons, hdb]

/-- In every branch of the body, the trace contains the handler invocation
with the filtered parameter list. -/
theorem callHandler_mem_runWithTx (hasEH : Bool) (b : Behavior)
    (db t : JSValue) (transaction : Option JSValue) (params : List JSValue)
    (pre : List Event) :
    Event.callHandler db t (params.filter (fun p => decide (p ≠ db ∧ p ≠ t))) ∈
      (runWithTx hasEH b db t transaction params pre).2 := by
  unfold runWithTx catchBlock
  cases b.handlerResult <;> cases b.commitResult <;> cases b.rollbackResult <;>
    cases hasEH <;> cases transaction <;> cases b.finishedAfterHandler <;> simp

/-- A sample behavior where every external operation succeeds: transaction
creation yields `transaction 0`, the handler resolves with `other 1`, the
`finished` flag stays unset, commit and rollback succeed, and the error
handler resolves with `other 2`. -/
def bSucc : Behavior :=
  { createdTx := .ok (.transaction 0), handlerResult := .ok (.other 1),
    finishedAfterHandler := false, commitResult := .ok (),
    rollbackResult := .ok (), errorHandlerResult := .ok (.other 2) }

/-- Like `bSucc` but the handler rejects with error `external 5`. -/
def bFail : Behavior :=
  { bSucc with handlerResult := .error (.external 5) }

/-- Like `bFail` but rollback itself rejects with error `external 6`. -/
def bRollbackFail : Behavior :=
  { bFail with rollbackResult := .error (.external 6) }

/-- Like `bSucc` but `db.transaction()` rejects with error `external 9`. -/
def bCreateFail : Behavior :=
  { bSucc with createdTx := .error (.external 9) }

/-- Like `bSucc` but commit rejects with error `external 7`. -/
def bCommitFail : Behavior :=
  { bSucc with commitResult := .error (.external 7) }

/-- C7: whenever the first positional argument does not satisfy the
database-handle capability test (or the argument list is empty, or no
database handle occurs at all), the call fails with an `InvalidArgument`
error describing the actual first argument, with an empty side-effect trace:
the handler is never invoked and no transaction is created. -/
theorem C7_invalid_first_argument (hasErrorHandler : Bool) (b : Behavior)
    (params : List JSValue)
    (h : ∀ x, params.head? = some x → isSequelize x = false) :
    wrappedMethod hasErrorHandler b params =
      (.error (.invalidArgument params.head?), []) := by
  cases params with
  | nil => simp [wrappedMethod]
  | cons a l =>
    have ha : isSequelize a = false := h a rfl
    unfold wrappedMethod
    cases hf : (a :: l).find? isSequelize with
    | none => simp
    | some db =>
      have hdb : isSequelize db = true := List.find?_some hf
      have hne : (a :: l).head? ≠ some db := by
        simp only [List.head?_cons, ne_eq, Option.some.injEq]
        intro he
        rw [he] at ha
        rw [ha] at hdb
        exact Bool.false_ne_true hdb
      simp only [hne, if_true, ite_not, if_neg]
      simp

/-- C7 witness: a call whose first argument `other 3` is not a database
handle, even though `sequelize 0` occurs later in the list. -/
theorem C7_witness :
    (∀ x, ([JSValue.other 3, JSValue.sequelize 0] : List JSValue).head? = some x →
        isSequelize x = false) ∧
    wrappedMethod false bSucc [JSValue.other 3, JSValue.sequelize 0] =
      (.error (.invalidArgument (some (JSValue.other 3))), []) :=
  ⟨by decide,
    C7_invalid_first_argument false bSucc [JSValue.other 3, JSValue.sequelize 0]
      (by decide)⟩

/-- C8: with a valid database handle first and no supplied transaction, a
failure of `db.transaction()` propagates to the caller unchanged; the handler
is never invoked, no commit or rollback occurs, and the error handler is not
invoked even when present. -/
theorem C8_creation_failure (hasErrorHandler : Bool) (b : Behavior)
    (db : JSValue) (l : List JSValue) (e : Err)
    (hdb : isSequelize db = true)
    (hnotx : (db :: l).find? isTransaction = none)
    (hcr : b.createdTx = .error e) :
    (wrappedMethod hasErrorHandler b (db :: l)).1 = .error e ∧
    (wrappedMethod hasErrorHandler b (db :: l)).2.countP Event.isCallHandler = 0 ∧
    (wrappedMethod hasErrorHandler b (db :: l)).2.countP Event.isCommit = 0 ∧
    (wrappedMethod hasErrorHandler b (db :: l)).2.countP Event.isRollback = 0 ∧
    (wrappedMethod hasErrorHandler b (db :: l)).2.countP Event.isCallErrorHandler = 0 := by
  have hf := find?_isSequelize_cons_self db l hdb
  simp [wrappedMethod, hf, hnotx, hcr, Event.isCallHandler, Event.isCommit,
    Event.isRollback, Event.isCallErrorHandler, Event.isTxCreate]

/-- C8 witness: creation failure `external 9` on the call
`wrapped(sequelize 0, other 42)` with an error handler present. -/
theorem C8_witness :
    bCreateFail.createdTx = .error (.external 9) ∧
    (wrappedMethod true bCreateFail [JSValue.sequelize 0, JSValue.other 42]).1 =
      .error (.external 9) ∧
    (wrappedMethod true bCreateFail [JSValue.sequelize 0, JSValue.other 42]).2.countP
      Event.isCallHandler = 0 ∧
    (wrappedMethod true bCreateFail [JSValue.sequelize 0, JSValue.other 42]).2.countP
      Event.isCommit = 0 ∧
    (wrappedMethod true bCreateFail [JSValue.sequelize 0, JSValue.other 42]).2.countP
      Event.isRollback = 0 ∧
    (wrappedMethod true bCreateFail [JSValue.sequelize 0, JSValue.other 42]).2.countP
      Event.isCallErrorHandler = 0 :=
  ⟨rfl, C8_creation_failure true bCreateFail (JSValue.sequelize 0) [JSValue.other 42]
    (.external 9) rfl rfl rfl⟩

/-- C9: wrap-time validation — a non-callable handler always fails
construction with the handler `InvalidArgument` error whatever the error
handler argument; a callable handler with a provided non-callable error
handler fails with the error-handler `InvalidArgument` error; a callable
handler with an absent or callable error handler constructs successfully
(with no other effect, construction being pure here). -/
theorem C9_wrap_time_validation :
    (∀ eh : Option Bool,
      sequelizeTransactionalMethodGenerator false eh = .error .invalidHandler) ∧
    sequelizeTransactionalMethodGenerator true (some false) =
      .error .invalidErrorHandler ∧
    sequelizeTransactionalMethodGenerator true none = .ok () ∧
    sequelizeTransactionalMethodGenerator true (some true) = .ok () := by
  refine ⟨fun eh => ?_, rfl, rfl, rfl⟩
  cases eh <;> rfl

/-- C2: no error handler, valid database handle first, no transaction among
the arguments, handler succeeds with `v`, commit succeeds: exactly one
transaction is created, it is committed exactly once — the commit skipped
precisely when the `finished` flag is already set — no rollback happens, and
the call resolves with `v` unchanged. -/
theorem C2_local_success (b : Behavior) (db t v : JSValue) (l : List JSValue)
    (hdb : isSequelize db = true)
    (hnotx : (db :: l).find? isTransaction = none)
    (hcreate : b.createdTx = .ok t)
    (hh : b.handlerResult = .ok v)
    (hc : b.commitResult = .ok ()) :
    (wrappedMethod false b (db :: l)).1 = .ok v ∧
    (wrappedMethod false b (db :: l)).2.countP Event.isTxCreate = 1 ∧
    (wrappedMethod false b (db :: l)).2.countP Event.isCommit =
      (if b.finishedAfterHandler then 0 else 1) ∧
    (wrappedMethod false b (db :: l)).2.countP Event.isRollback = 0 := by
  have hf := find?_isSequelize_cons_self db l hdb
  cases hfin : b.finishedAfterHandler <;>
    simp [wrappedMethod, hf, hnotx, hcreate, runWithTx, hh, hfin, hc,
      List.countP_append, List.countP_cons, Event.isTxCreate, Event.isCommit,
      Event.isRollback, Event.isCallHandler]

/-- C2 witness: `wrapped(sequelize 0, other 42)` under `bSucc`. -/
theorem C2_witness :
    bSucc.handlerResult = .ok (.other 1) ∧
    (wrappedMethod false bSucc [JSValue.sequelize 0, JSValue.other 42]).1 =
      .ok (.other 1) ∧
    (wrappedMethod false bSucc [JSValue.sequelize 0, JSValue.other 42]).2.countP
      Event.isTxCreate = 1 ∧
    (wrappedMethod false bSucc [JSValue.sequelize 0, JSValue.other 42]).2.countP
      Event.isCommit = 1 ∧
    (wrappedMethod false bSucc [JSValue.sequelize 0, JSValue.other 42]).2.countP
      Event.isRollback = 0 :=
  ⟨rfl, C2_local_success bSucc (JSValue.sequelize 0) (JSValue.transaction 0)
    (JSValue.other 1) [JSValue.other 42] rfl rfl rfl rfl rfl⟩

/-- C3: no error handler, valid database handle first, no transaction among
the arguments, handler fails with error `e`, rollback succeeds: exactly one
transaction is created, it is rolled back exactly once, never committed, and
the call rejects with the original handler error `e` unchanged. -/
theorem C3_local_failure_rollback (b : Behavior) (db t : JSValue)
    (l : List JSValue) (e : Err)
    (hdb : isSequelize db = true)
    (hnotx : (db :: l).find? isTransaction = none)
    (hcreate : b.createdTx = .ok t)
    (hh : b.handlerResult = .error e)
    (hr : b.rollbackResult = .ok ()) :
    (wrappedMethod false b (db :: l)).1 = .error e ∧
    (wrappedMethod false b (db :: l)).2.countP Event.isTxCreate = 1 ∧
    (wrappedMethod false b (db :: l)).2.countP Event.isRollback = 1 ∧
    (wrappedMethod false b (db :: l)).2.countP Event.isCommit = 0 := by
  have hf := find?_isSequelize_cons_self db l hdb
  simp [wrappedMethod, hf, hnotx, hcreate, runWithTx, catchBlock, hh, hr,
    List.countP_append, List.countP_cons, Event.isTxCreate, Event.isCommit,
    Event.isRollback, Event.isCallHandler]

/-- C3 witness: `wrapped(sequelize 0, other 42)` under `bFail`, whose handler
rejects with `external 5`. -/
theorem C3_witness :
    bFail.handlerResult = .error (.external 5) ∧
    (wrappedMethod false bFail [JSValue.sequelize 0, JSValue.other 42]).1 =
      .error (.external 5) ∧
    (wrappedMethod false bFail [JSValue.sequelize 0, JSValue.other 42]).2.countP
      Event.isTxCreate = 1 ∧
    (wrappedMethod false bFail [JSValue.sequelize 0, JSValue.other 42]).2.countP
      Event.isRollback = 1 ∧
    (wrappedMethod false bFail [JSValue.sequelize 0, JSValue.other 42]).2.countP
      Event.isCommit = 0 :=
  ⟨rfl, C3_local_failure_rollback bFail (JSValue.sequelize 0)
    (JSValue.transaction 0) [JSValue.other 42] (.external 5) rfl rfl rfl rfl rfl⟩

/-- C4: with an error handler, when the handler fails with `e` the wrapper
performs no rollback (and no commit); the error handler is invoked as
`errorHandler(e, db, workingTransaction, originalTransactionOrNone)`, and its
outcome — a returned value or its own failure — becomes the call's outcome
verbatim.  `t` is the working transaction: the supplied one, or the locally
created one when none was supplied. -/
theorem C4_error_handler_branch (b : Behavior) (db t : JSValue)
    (l : List JSValue) (e : Err)
    (hdb : isSequelize db = true)
    (hwt : (db :: l).find? isTransaction = some t ∨
        ((db :: l).find? isTransaction = none ∧ b.createdTx = .ok t))
    (hh : b.handlerResult = .error e) :
    (wrappedMethod true b (db :: l)).1 = b.errorHandlerResult ∧
    Event.callErrorHandler e db t ((db :: l).find? isTransaction) ∈
      (wrappedMethod true b (db :: l)).2 ∧
    (wrappedMethod true b (db :: l)).2.countP Event.isRollback = 0 ∧
    (wrappedMethod true b (db :: l)).2.countP Event.isCommit = 0 := by
  have hf := find?_isSequelize_cons_self db l hdb
  rcases hwt with htx | ⟨hnotx, hcreate⟩
  · simp [wrappedMethod, hf, runWithTx, catchBlock, hh, htx,
      List.countP_append, List.countP_cons, Event.isRollback, Event.isCommit,
      Event.isCallHandler, Event.isCallErrorHandler, Event.isTxCreate]
  · simp [wrappedMethod, hf, runWithTx, catchBlock, hh, hnotx, hcreate,
      List.countP_append, List.countP_cons, Event.isRollback, Event.isCommit,
      Event.isCallHandler, Event.isCallErrorHandler, Event.isTxCreate]

/-- C4 witness: `wrapped(sequelize 0, transaction 1, other 42)` under `bFail`
with an error handler resolving to `other 2`. -/
theorem C4_witness :
    bFail.handlerResult = .error (.external 5) ∧
    (wrappedMethod true bFail
        [JSValue.sequelize 0, JSValue.transaction 1, JSValue.other 42]).1 =
      bFail.errorHandlerResult ∧
    Event.callErrorHandler (.external 5) (JSValue.sequelize 0)
        (JSValue.transaction 1)
        (([JSValue.sequelize 0, JSValue.transaction 1,
            JSValue.other 42] : List JSValue).find? isTransaction) ∈
      (wrappedMethod true bFail
        [JSValue.sequelize 0, JSValue.transaction 1, JSValue.other 42]).2 ∧
    (wrappedMethod true bFail
        [JSValue.sequelize 0, JSValue.transaction 1, JSValue.other 42]).2.countP
      Event.isRollback = 0 ∧
    (wrappedMethod true bFail
        [JSValue.sequelize 0, JSValue.transaction 1, JSValue.other 42]).2.countP
      Event.isCommit = 0 :=
  ⟨rfl, C4_error_handler_branch bFail (JSValue.sequelize 0)
    (JSValue.transaction 1) [JSValue.transaction 1, JSValue.other 42]
    (.external 5) rfl (Or.inl rfl) rfl⟩

/-- C5: when a transaction is supplied by the caller (found among the
arguments), then whether or not the wrapped method was built with an error
handler, the wrapper never calls commit on it (in particular not when the
handler succeeds) and creates no transaction; and with no error handler
present, the call's outcome is exactly the handler's outcome — so a handler
failure re-throws the original error — with no rollback ever issued. -/
theorem C5_supplied_transaction_untouched (hasErrorHandler : Bool)
    (b : Behavior) (db t : JSValue) (l : List JSValue)
    (hdb : isSequelize db = true)
    (htx : (db :: l).find? isTransaction = some t) :
    (wrappedMethod hasErrorHandler b (db :: l)).2.countP Event.isCommit = 0 ∧
    (wrappedMethod hasErrorHandler b (db :: l)).2.countP Event.isTxCreate = 0 ∧
    (wrappedMethod false b (db :: l)).1 = b.handlerResult ∧
    (wrappedMethod false b (db :: l)).2.countP Event.isRollback = 0 := by
  have hf := find?_isSequelize_cons_self db l hdb
  cases hres : b.handlerResult <;> cases hasErrorHandler <;>
    simp [wrappedMethod, hf, htx, runWithTx, catchBlock, hres,
      List.countP_append, List.countP_cons, Event.isCommit, Event.isRollback,
      Event.isTxCreate, Event.isCallHandler, Event.isCallErrorHandler]

/-- C5 witness: `wrapped(sequelize 0, transaction 1, other 42)` under
`bFail`, instantiated with an error handler present for the no-commit and
no-creation parts: the supplied `transaction 1` is never committed, no
transaction is created, and without an error handler the handler error
re-throws with no rollback. -/
theorem C5_witness :
    (([JSValue.sequelize 0, JSValue.transaction 1,
        JSValue.other 42] : List JSValue).find? isTransaction =
      some (JSValue.transaction 1)) ∧
    (wrappedMethod true bFail
        [JSValue.sequelize 0, JSValue.transaction 1, JSValue.other 42]).2.countP
      Event.isCommit = 0 ∧
    (wrappedMethod true bFail
        [JSValue.sequelize 0, JSValue.transaction 1, JSValue.other 42]).2.countP
      Event.isTxCreate = 0 ∧
    (wrappedMethod false bFail
        [JSValue.sequelize 0, JSValue.transaction 1, JSValue.other 42]).1 =
      bFail.handlerResult ∧
    (wrappedMethod false bFail
        [JSValue.sequelize 0, JSValue.transaction 1, JSValue.other 42]).2.countP
      Event.isRollback = 0 :=
  ⟨rfl, C5_supplied_transaction_untouched true bFail (JSValue.sequelize 0)
    (JSValue.transaction 1) [JSValue.transaction 1, JSValue.other 42] rfl rfl⟩

/-- C6: the working transaction `t` is recognized wherever it sits in the
argument list (it is the first element satisfying the transaction capability
test, or the locally created one when none is found), and the handler is
invoked as `handler(db, t, ...rest)` where `rest` is the argument list with
every occurrence of the database handle and of `t` removed — a sublist of the
arguments, hence preserving their original relative order. -/
theorem C6_argument_forwarding (hasErrorHandler : Bool) (b : Behavior)
    (db t : JSValue) (l : List JSValue)
    (hdb : isSequelize db = true)
    (hwt : (db :: l).find? isTransaction = some t ∨
        ((db :: l).find? isTransaction = none ∧ b.createdTx = .ok t)) :
    Event.callHandler db t
        ((db :: l).filter (fun p => decide (p ≠ db ∧ p ≠ t))) ∈
      (wrappedMethod hasErrorHandler b (db :: l)).2 ∧
    ((db :: l).filter (fun p => decide (p ≠ db ∧ p ≠ t))).Sublist (db :: l) := by
  have hf := find?_isSequelize_cons_self db l hdb
  refine ⟨?_, List.filter_sublist _⟩
  rcases hwt with htx | ⟨hnotx, hcreate⟩
  · simp only [wrappedMethod, hf, htx, List.head?_cons, ne_eq,
      not_true_eq_false, if_false, ite_not, if_pos]
    exact callHandler_mem_runWithTx _ _ _ _ _ _ _
  · simp only [wrappedMethod, hf, hnotx, hcreate, List.head?_cons, ne_eq,
      not_true_eq_false, if_false, ite_not, if_pos]
    exact callHandler_mem_runWithTx _ _ _ _ _ _ _

/-- C6 witness: in `wrapped(sequelize 0, other 41, transaction 1, other 42)`
the transaction sits third, yet the handler receives it with rest
`[other 41, other 42]` in original order. -/
theorem C6_witness :
    (([JSValue.sequelize 0, JSValue.other 41, JSValue.transaction 1,
        JSValue.other 42] : List JSValue).find? isTransaction =
      some (JSValue.transaction 1)) ∧
    Event.callHandler (JSValue.sequelize 0) (JSValue.transaction 1)
        (([JSValue.sequelize 0, JSValue.other 41, JSValue.transaction 1,
            JSValue.other 42] : List JSValue).filter
          (fun p => decide (p ≠ JSValue.sequelize 0 ∧ p ≠ JSValue.transaction 1))) ∈
      (wrappedMethod false bSucc
        [JSValue.sequelize 0, JSValue.other 41, JSValue.transaction 1,
          JSValue.other 42]).2 ∧
    (([JSValue.sequelize 0, JSValue.other 41, JSValue.transaction 1,
        JSValue.other 42] : List JSValue).filter
      (fun p => decide (p ≠ JSValue.sequelize 0 ∧ p ≠ JSValue.transaction 1))).Sublist
      [JSValue.sequelize 0, JSValue.other 41, JSValue.transaction 1,
        JSValue.other 42] :=
  ⟨rfl, C6_argument_forwarding false bSucc (JSValue.sequelize 0)
    (JSValue.transaction 1)
    [JSValue.other 41, JSValue.transaction 1, JSValue.other 42] rfl (Or.inl rfl)⟩

/-- C10: no error handler, no supplied transaction, handler fails with `e`,
and the automatic rollback itself fails with `e2`: the call rejects with the
rollback failure `e2`, discarding the original handler error. -/
theorem C10_rollback_failure_replaces (b : Behavior) (db t : JSValue)
    (l : List JSValue) (e e2 : Err)
    (hdb : isSequelize db = true)
    (hnotx : (db :: l).find? isTransaction = none)
    (hcreate : b.createdTx = .ok t)
    (hh : b.handlerResult = .error e)
    (hr : b.rollbackResult = .error e2) :
    (wrappedMethod false b (db :: l)).1 = .error e2 := by
  have hf := find?_isSequelize_cons_self db l hdb
  simp [wrappedMethod, hf, hnotx, hcreate, runWithTx, catchBlock, hh, hr]

/-- C10 witness: under `bRollbackFail` the handler fails with `external 5`
and rollback fails with `external 6`; the call rejects with `external 6`,
not the original `external 5`. -/
theorem C10_witness :
    bRollbackFail.handlerResult = .error (.external 5) ∧
    bRollbackFail.rollbackResult = .error (.external 6) ∧
    (.external 6 : Err) ≠ .external 5 ∧
    (wrappedMethod false bRollbackFail [JSValue.sequelize 0]).1 =
      .error (.external 6) :=
  ⟨rfl, rfl, by decide,
    C10_rollback_failure_replaces bRollbackFail (JSValue.sequelize 0)
      (JSValue.transaction 0) [] (.external 5) (.external 6) rfl rfl rfl rfl rfl⟩

/-- C1 counterexample: under `bCommitFail` the handler succeeds and the
commit of the locally created `transaction 0` fails with `external 7`
(`src/main.js:96` is awaited inside the `try`, so the failure is caught at
`src/main.js:100`).  Contradicting the claim: with no error handler the
wrapper rolls the transaction back (one rollback event); with an error
handler the commit failure is routed to it (one error-handler invocation)
and the call even resolves with the error handler's value `other 2` instead
of propagating the commit failure. -/
theorem C1_counterexample :
    bCommitFail.handlerResult = .ok (.other 1) ∧
    bCommitFail.commitResult = .error (.external 7) ∧
    (wrappedMethod false bCommitFail [JSValue.sequelize 0]).2.countP
      Event.isRollback = 1 ∧
    (wrappedMethod true bCommitFail [JSValue.sequelize 0]).2.countP
      Event.isCallErrorHandler = 1 ∧
    (wrappedMethod true bCommitFail [JSValue.sequelize 0]).1 =
      .ok (.other 2) := by
  refine ⟨rfl, rfl, ?_, ?_, rfl⟩ <;> rfl

/-- C1 amended: when the handler succeeds but the commit of a locally
created transaction fails with `e`, the failure is caught by the wrapper's
own `catch` block: with an error handler present, the error handler is
invoked with `e` (original transaction `none`) and its outcome becomes the
call's outcome; with no error handler, the wrapper rolls the local
transaction back exactly once and then rejects with `e` — or with the
rollback failure when the rollback also fails. -/
theorem C1_amended_commit_failure_caught (b : Behavior) (db t v : JSValue)
    (l : List JSValue) (e : Err)
    (hdb : isSequelize db = true)
    (hnotx : (db :: l).find? isTransaction = none)
    (hcreate : b.createdTx = .ok t)
    (hh : b.handlerResult = .ok v)
    (hfin : b.finishedAfterHandler = false)
    (hc : b.commitResult = .error e) :
    ((wrappedMethod true b (db :: l)).1 = b.errorHandlerResult ∧
      Event.callErrorHandler e db t none ∈ (wrappedMethod true b (db :: l)).2) ∧
    ((wrappedMethod false b (db :: l)).2.countP Event.isRollback = 1 ∧
      (wrappedMethod false b (db :: l)).1 =
        (match b.rollbackResult with
          | .ok _ => Except.error e
          | .error e2 => Except.error e2)) := by
  have hf := find?_isSequelize_cons_self db l hdb
  constructor
  · simp [wrappedMethod, hf, hnotx, hcreate, runWithTx, catchBlock, hh,
      hfin, hc]
  · cases hr : b.rollbackResult <;>
      simp [wrappedMethod, hf, hnotx, hcreate, runWithTx, catchBlock, hh,
        hfin, hc, hr, List.countP_append, List.countP_cons, Event.isRollback,
        Event.isCommit, Event.isCallHandler, Event.isTxCreate]

/-- C1 amended witness: `wrapped(sequelize 0)` under `bCommitFail`. -/
theorem C1_amended_witness :
    bCommitFail.handlerResult = .ok (.other 1) ∧
    bCommitFail.commitResult = .error (.external 7) ∧
    (((wrappedMethod true bCommitFail [JSValue.sequelize 0]).1 =
        bCommitFail.errorHandlerResult ∧
      Event.callErrorHandler (.external 7) (JSValue.sequelize 0)
          (JSValue.transaction 0) none ∈
        (wrappedMethod true bCommitFail [JSValue.sequelize 0]).2) ∧
    ((wrappedMethod false bCommitFail [JSValue.sequelize 0]).2.countP
        Event.isRollback = 1 ∧
      (wrappedMethod false bCommitFail [JSValue.sequelize 0]).1 =
        .error (.external 7))) :=
  ⟨rfl, rfl,
    C1_amended_commit_failure_caught bCommitFail (JSValue.sequelize 0)
      (JSValue.transaction 0) (JSValue.other 1) [] (.external 7)
      rfl rfl rfl rfl rfl rfl⟩

end SequelizeTransactionalMethod
